import Mathlib

/-!
Shallow embedding of the stock-prediction web frontend
(eddieX-2021/stockPredictionApp): the ticker search/ranking component
(`getSuggestions` in the dynamically-fetched-candidates page variant),
the dashboard aggregator (`StockPage` in `app/[stock]/page.tsx`,
final version), and the symbol-lookup API route
(`app/api/finnhub-stocks/route.ts`) together with its client-side
consumption.  JavaScript strings are modelled as Lean `String`
(with `trim` / `toLower` / `startsWith` standing for `trim` /
`toLowerCase` / `startsWith`, and `localeCompare` modelled as the
lexicographic order on `String`, which agrees with it on the
ASCII ticker codes in play); JSON numbers, on which the frontend
performs no arithmetic, are modelled as `Int`.
-/

namespace StockApp

/-! ## Character-wise models of the JavaScript string operations

The JavaScript string methods used by the frontend are modelled
character-wise over `String.data` (`List Char`), so that every
definition in this file is a structural recursion the kernel can
evaluate on concrete inputs: `toLowerCase` / `toUpperCase` as a
character map, `trim` as dropping whitespace from both ends,
`startsWith` as a character-list prefix test, and `localeCompare`
on the all-ASCII ticker codes as the lexicographic character order. -/

/-- `s.toLowerCase()`, character-wise. -/
def jsToLower (s : String) : String :=
  ⟨s.data.map Char.toLower⟩

/-- `s.toUpperCase()`, character-wise. -/
def jsToUpper (s : String) : String :=
  ⟨s.data.map Char.toUpper⟩

/-- `s.trim()`: drop whitespace from both ends. -/
def jsTrim (s : String) : String :=
  ⟨((s.data.dropWhile Char.isWhitespace).reverse.dropWhile Char.isWhitespace).reverse⟩

/-- `s.startsWith(pre)`: `pre.data` is a prefix of `s.data`. -/
def jsStartsWith (s pre : String) : Bool :=
  pre.data.isPrefixOf s.data

/-- Lexicographic "no later than" on character lists, the order
`localeCompare` induces on the ASCII ticker codes. -/
def charListLE : List Char → List Char → Bool
  | [], _ => true
  | _ :: _, [] => false
  | a :: as, b :: bs =>
      if a < b then true
      else if b < a then false
      else charListLE as bs

/-- `a.localeCompare(b) <= 0`, as the lexicographic order on the
underlying characters. -/
def jsSymbolLE (a b : String) : Bool :=
  charListLE a.data b.data

/-! ## SymbolIndex: candidates and the popular-symbol list -/

/-- A candidate ticker entry: `interface Stock { symbol: string; name: string }`. -/
structure Stock where
  symbol : String
  name : String
deriving DecidableEq, Repr

/-- The `POPULAR_SYMBOLS` constant of the dynamic-candidates page variant
(note `"BA"` and `"LMT"` appear twice in the source list, once under
Industrials and once under Space & Aerospace). -/
def POPULAR_SYMBOLS : List String :=
  ["AAPL", "MSFT", "GOOGL", "GOOG", "AMZN", "TSLA", "META", "NVDA", "NFLX", "INTC",
   "AMD", "CRM", "ORCL", "IBM", "ADBE", "CSCO",
   "JPM", "BAC", "WFC", "C", "GS", "MS", "AXP",
   "WMT", "TGT", "COST", "HD", "LOW", "NKE", "SBUX", "MCD",
   "UNH", "JNJ", "PFE", "MRK", "ABBV", "LLY", "BMY",
   "PG", "KO", "PEP", "PM", "MO",
   "XOM", "CVX", "COP", "SLB", "EOG",
   "UPS", "FDX", "CAT", "DE", "BA", "LMT", "GE",
   "VZ", "T", "TMUS",
   "SPY", "QQQ", "DIA", "VTI", "VOO", "ARKK", "XLK", "XLF", "XLE", "IWM",
   "SPCE", "RKLB", "MAXR", "ASTR", "LHX", "NOC", "BA", "LMT", "IRDM", "SIRI", "PL"]

/-- `POPULAR_SYMBOLS.includes(s)`. -/
def isPopular (s : String) : Bool :=
  POPULAR_SYMBOLS.contains s

/-- The comparator passed to `Array.prototype.sort` in `sortStocks`,
rendered as a boolean "a comes no later than b" relation:
popular symbols first, then `localeCompare` on the symbol code
(modelled as the lexicographic `String` order). -/
def stockLE (a b : Stock) : Bool :=
  let aIsPopular := isPopular a.symbol
  let bIsPopular := isPopular b.symbol
  if aIsPopular && !bIsPopular then true
  else if !aIsPopular && bIsPopular then false
  else jsSymbolLE a.symbol b.symbol

/-- The comparator as a decidable relation. -/
def stockLEP (a b : Stock) : Prop :=
  stockLE a b = true

instance : DecidableRel stockLEP := fun a b =>
  inferInstanceAs (Decidable (stockLE a b = true))

/-- `sortStocks`: sort a bucket with the popularity-then-symbol comparator
(JavaScript `Array.prototype.sort` is stable, as is the insertion sort
used to model it). -/
def sortStocks (stocks : List Stock) : List Stock :=
  stocks.insertionSort stockLEP

/-- One step of the `reduce` in `getSuggestions`: push the entry onto the
symbol-match bucket when its lower-cased symbol starts with the input,
otherwise onto the name-match bucket when its lower-cased name does,
otherwise drop it. -/
def partitionStep (inputValue : String) (acc : List Stock × List Stock) (stock : Stock) :
    List Stock × List Stock :=
  if jsStartsWith (jsToLower stock.symbol) inputValue then (acc.1 ++ [stock], acc.2)
  else if jsStartsWith (jsToLower stock.name) inputValue then (acc.1, acc.2 ++ [stock])
  else acc

/-- The `stockData.reduce(...)` of `getSuggestions`, producing
`(symbolMatches, nameMatches)`. -/
def partitionMatches (inputValue : String) (stockData : List Stock) :
    List Stock × List Stock :=
  stockData.foldl (partitionStep inputValue) ([], [])

/-- `value.trim().toLowerCase()`. -/
def normalizeQuery (value : String) : String :=
  jsToLower (jsTrim value)

/-- The concatenation of the two sorted buckets, before the length bound
(`[...sortStocks(symbolMatches), ...sortStocks(nameMatches)]`). -/
def rankedFull (value : String) (stockData : List Stock) : List Stock :=
  let inputValue := normalizeQuery value
  sortStocks (partitionMatches inputValue stockData).1 ++
    sortStocks (partitionMatches inputValue stockData).2

/-- `getSuggestions` of the dynamic-candidates page variant: normalize the
query; an empty normalized query yields no suggestions; otherwise
partition into symbol matches and name matches, sort each bucket,
concatenate symbol matches first, and `.slice(0, 10)`. -/
def getSuggestions (value : String) (stockData : List Stock) : List Stock :=
  let inputValue := normalizeQuery value
  if inputValue.length = 0 then []
  else
    (sortStocks (partitionMatches inputValue stockData).1 ++
      sortStocks (partitionMatches inputValue stockData).2).take 10

/-! ## DashboardAggregator: `StockPage` in `app/[stock]/page.tsx` (final version) -/

/-- `{ headline: string; sentiment: string }`. -/
structure NewsItem where
  headline : String
  sentiment : String
deriving DecidableEq, Repr

/-- `{ post: string; sentiment: string }`. -/
structure RedditItem where
  post : String
  sentiment : String
deriving DecidableEq, Repr

/-- `Financials = Record<string, unknown>`: an opaque structured record,
modelled as a field association list. -/
abbrev Financials : Type := List (String × String)

/-- JSON body of a successful `GET /predict` response; the page reads
`predicted_price`, which may be missing (`?? null`). -/
structure PricePayload where
  predicted_price : Option Int
deriving DecidableEq, Repr

/-- JSON body of a successful `POST /api/news` response; the page reads
`news`, which may be missing (`?? []`). -/
structure NewsPayload where
  news : Option (List NewsItem)
deriving DecidableEq, Repr

/-- JSON body of a successful `POST /api/reddit` response; the page reads
`reddit`, which may be missing (`?? []`). -/
structure RedditPayload where
  reddit : Option (List RedditItem)
deriving DecidableEq, Repr

/-- JSON body of a successful `POST /api/financials` response; the page
reads `financials`, `direction` and `confidence`, each possibly missing. -/
structure FinPayload where
  financials : Option Financials
  direction : Option String
  confidence : Option Int
deriving DecidableEq, Repr

/-- The seven `useState` cells of `StockPage`. -/
structure DashboardState where
  predictedPrice : Option Int
  news : List NewsItem
  reddit : List RedditItem
  financials : Option Financials
  direction : Option String
  confidence : Option Int
  error : Option String
deriving DecidableEq, Repr

/-- The initial state of the seven `useState` cells:
`null`, `[]`, `[]`, `null`, `null`, `null`, `null`. -/
def initialState : DashboardState :=
  { predictedPrice := none, news := [], reddit := [], financials := none,
    direction := none, confidence := none, error := none }

/-- Outcome of one `fetch` to the backend: an HTTP success whose JSON body
parsed to `payload`; an HTTP response with `r.ok` false; or a rejection of
the `fetch` promise itself (transport error), carrying the string the
rejection reason stringifies to (`String(err)`). -/
inductive FetchResult (α : Type) where
  | success (payload : α)
  | httpFail
  | transportFail (msg : String)
deriving DecidableEq, Repr

/-- `isSuccess` discriminator for a fetch outcome. -/
def FetchResult.isSuccess : FetchResult α → Bool
  | .success _ => true
  | _ => false

/-- Whether the outcome is a transport-level rejection of `fetch` itself. -/
def FetchResult.isTransport : FetchResult α → Bool
  | .transportFail _ => true
  | _ => false

/-- `fetch(...).then((r) => r.ok ? r.json() : Promise.reject(label))`:
an ok response yields its payload; a non-ok response rejects with the
section label; a transport error passes through the `then` unhandled,
so the rejection reason stays the original error. -/
def settle (label : String) : FetchResult α → Except String α
  | .success p => .ok p
  | .httpFail => .error label
  | .transportFail msg => .error msg

/-- `Promise.all` over the four settled calls: succeeds with the tuple of
payloads when all four succeed, otherwise rejects with the reason of a
rejected member.  `Promise.all` rejects with the temporally first
rejection; this model picks the lowest-indexed rejected call, a choice
none of the verified properties is sensitive to. -/
def joinAll (price : Except String PricePayload) (news : Except String NewsPayload)
    (reddit : Except String RedditPayload) (fin : Except String FinPayload) :
    Except String (PricePayload × NewsPayload × RedditPayload × FinPayload) := do
  let p ← price
  let n ← news
  let r ← reddit
  let f ← fin
  pure (p, n, r, f)

/-- The continuation of `Promise.all(...)`: on success the `then` branch
writes the six data cells, defaulting each missing payload field
(`?? null`, `?? []`), and does not touch `error`; on rejection the
`catch` branch writes `String(err)` into `error` and touches nothing
else. -/
def applyLoad (s : DashboardState)
    (res : Except String (PricePayload × NewsPayload × RedditPayload × FinPayload)) :
    DashboardState :=
  match res with
  | .ok (priceJson, newsJson, redditJson, finJson) =>
      { s with
        predictedPrice := priceJson.predicted_price,
        news := newsJson.news.getD [],
        reddit := redditJson.reddit.getD [],
        financials := finJson.financials,
        direction := finJson.direction,
        confidence := finJson.confidence }
  | .error err => { s with error := some err }

/-- The body of the `useEffect` of `StockPage`, as a state transformer over
the fetch outcomes: `if (!T) return;` leaves the state untouched;
otherwise the four calls are joined and the continuation applied. -/
def load (T : String) (price : FetchResult PricePayload) (news : FetchResult NewsPayload)
    (reddit : FetchResult RedditPayload) (fin : FetchResult FinPayload)
    (s : DashboardState) : DashboardState :=
  if T = "" then s
  else
    applyLoad s
      (joinAll (settle "Price API failed" price) (settle "News API failed" news)
        (settle "Reddit API failed" reddit) (settle "Financials API failed" fin))

/-- One backend HTTP request issued by the effect. -/
structure BackendRequest where
  method : String
  path : String
  body : Option String
deriving DecidableEq, Repr

/-- The requests the effect issues for ticker `T`: none when `T` is empty
(`if (!T) return;`), otherwise the four parallel calls with `T` as query
parameter or JSON body. -/
def requests (T : String) : List BackendRequest :=
  if T = "" then []
  else
    [{ method := "GET", path := "/predict?stock=" ++ T, body := none },
     { method := "POST", path := "/api/news", body := some T },
     { method := "POST", path := "/api/reddit", body := some T },
     { method := "POST", path := "/api/financials", body := some T }]

/-- `params.stock` from `useParams()`: `string | string[] | undefined`. -/
inductive RouteParam where
  | missing
  | str (s : String)
  | arr (xs : List String)
deriving DecidableEq, Repr

/-- `const ticker = Array.isArray(raw) ? raw[0] ?? "" : raw ?? "";`. -/
def resolveTicker : RouteParam → String
  | .missing => ""
  | .str s => s
  | .arr xs => xs.head?.getD ""

/-- `const T = ticker.toUpperCase();`. -/
def tickerT (p : RouteParam) : String :=
  jsToUpper (resolveTicker p)

/-! ## Event semantics of the dashboard page across navigations

Navigating between `/A` and `/B` re-renders the same `[stock]` page
component with a new `params.stock`; the seven state cells persist, the
effect re-runs because `T` changed, and the `then` / `catch` callbacks of
a previously started load still write to the same cells when that load
later settles — the source has no ticker guard and no cancellation
token. -/

/-- The page state visible across navigations: the currently active ticker
(from the URL) and the shared dashboard cells. -/
structure PageState where
  activeT : String
  dash : DashboardState
deriving DecidableEq, Repr

/-- An event in the life of the page: a navigation to a new route
parameter (which re-runs the effect, starting a load for the new
ticker), or the settling of a load that was started for ticker `T`,
with the outcomes of its four calls. -/
inductive PageEvent where
  | navigate (p : RouteParam)
  | settleLoad (T : String) (price : FetchResult PricePayload)
      (news : FetchResult NewsPayload) (reddit : FetchResult RedditPayload)
      (fin : FetchResult FinPayload)
deriving Repr

/-- Apply one event: navigation updates the active ticker and keeps the
cells; a settling load applies its continuation to the shared cells
unconditionally, whatever ticker it was started for. -/
def stepEvent (s : PageState) : PageEvent → PageState
  | .navigate p => { s with activeT := tickerT p }
  | .settleLoad T price news reddit fin =>
      { s with dash := load T price news reddit fin s.dash }

/-- Run a sequence of events from the freshly mounted page. -/
def runTrace (events : List PageEvent) : PageState :=
  events.foldl stepEvent { activeT := "", dash := initialState }

/-! ## Symbol lookup: `app/api/finnhub-stocks/route.ts` and its client -/

/-- A primitive JSON value sitting in a field of a raw Finnhub entry:
either a string or some non-string value. -/
inductive JPrim where
  | jstr (s : String)
  | jother
deriving DecidableEq, Repr

/-- An element of the upstream JSON array: an object carrying optional
`symbol` and `description` fields, or a non-object value. -/
inductive RawElem where
  | obj (symbol : Option JPrim) (description : Option JPrim)
  | nonObj
deriving DecidableEq, Repr

/-- `isFinnhubSymbolRaw`: the element is an object, its `symbol` is a
string, and its `description` is absent or a string. -/
def isFinnhubSymbolRaw : RawElem → Bool
  | .obj symbol description =>
      (match symbol with
        | some (.jstr _) => true
        | _ => false) &&
      (match description with
        | none => true
        | some (.jstr _) => true
        | some .jother => false)
  | .nonObj => false

/-- The `.map` over guarded entries: `name` is the `description` when it
is a non-empty, non-blank string (`item.description &&
item.description.trim() !== ""`), else the symbol.  Elements that do not
pass the guard never reach the map; they yield a junk entry here. -/
def rawStock : RawElem → Stock
  | .obj (some (.jstr sym)) description =>
      { symbol := sym,
        name := match description with
          | some (.jstr d) => if d ≠ "" && jsTrim d ≠ "" then d else sym
          | _ => sym }
  | _ => { symbol := "", name := "" }

/-- `raw.filter(isFinnhubSymbolRaw).map(...)`. -/
def toStocks (raw : List RawElem) : List Stock :=
  (raw.filter isFinnhubSymbolRaw).map rawStock

/-- The upstream Finnhub response as the route handler sees it: a 2xx
response whose body is a JSON array or not an array, a non-2xx response,
or a transport failure (which lands in the `catch` block). -/
inductive UpstreamResp where
  | okArray (items : List RawElem)
  | okNotArray
  | httpError (status : Nat)
  | transportError (msg : String)
deriving Repr

/-- The JSON body the route returns: an array of stocks, or an object
`{ error: ... }`. -/
inductive RouteBody where
  | stocksArr (stocks : List Stock)
  | errObj (msg : String)
deriving DecidableEq, Repr

/-- What the route handler produced: HTTP status, body, and whether a
server-side `console.error` was emitted. -/
structure RouteResult where
  status : Nat
  body : RouteBody
  logged : Bool
deriving DecidableEq, Repr

/-- `GET` of `app/api/finnhub-stocks/route.ts`: a missing API key is a
logged 500; a non-OK upstream status is logged and forwarded with an
error body; a non-array upstream body is a logged 502; a throw is a
logged 500; otherwise the filtered, mapped stocks with status 200. -/
def routeGET (apiKey : Option String) (upstream : UpstreamResp) : RouteResult :=
  match apiKey with
  | none => { status := 500, body := .errObj "Finnhub API key is missing", logged := true }
  | some _ =>
      match upstream with
      | .httpError st =>
          { status := st, body := .errObj "Failed to fetch data from Finnhub", logged := true }
      | .okNotArray =>
          { status := 502, body := .errObj "Unexpected response format from Finnhub",
            logged := true }
      | .okArray items =>
          { status := 200, body := .stocksArr (toStocks items), logged := false }
      | .transportError _ =>
          { status := 500, body := .errObj "Failed to fetch stock data", logged := true }

/-- The client side (`fetchStockData` in the dynamic-candidates page):
`Array.isArray(data) ? setStockData(data) : setStockData([])` — an array
body becomes the candidate list, anything else becomes `[]`. -/
def clientCandidates : RouteBody → List Stock
  | .stocksArr stocks => stocks
  | .errObj _ => []

/-! ## Derived predicates used to state the claims -/

/-- All four calls delivered an ok response with a parsed body. -/
def allSuccess (price : FetchResult PricePayload) (news : FetchResult NewsPayload)
    (reddit : FetchResult RedditPayload) (fin : FetchResult FinPayload) : Bool :=
  price.isSuccess && news.isSuccess && reddit.isSuccess && fin.isSuccess

/-- Some call failed at the transport level (the `fetch` promise itself
rejected). -/
def anyTransport (price : FetchResult PricePayload) (news : FetchResult NewsPayload)
    (reddit : FetchResult RedditPayload) (fin : FetchResult FinPayload) : Bool :=
  price.isTransport || news.isTransport || reddit.isTransport || fin.isTransport

/-- The four section-failure labels of the dashboard page. -/
def sectionLabels : List String :=
  ["Price API failed", "News API failed", "Reddit API failed", "Financials API failed"]

/-- A navigation race: the user opens the page for "aapl", navigates to
"msft" while the first load is in flight, the "MSFT" load settles with
predicted price 100, then the stale "AAPL" load settles with predicted
price 50. -/
def staleTrace : List PageEvent :=
  [.navigate (.str "aapl"),
   .navigate (.str "msft"),
   .settleLoad "MSFT" (.success { predicted_price := some 100 }) (.success { news := some [] })
     (.success { reddit := some [] })
     (.success { financials := none, direction := none, confidence := none }),
   .settleLoad "AAPL" (.success { predicted_price := some 50 }) (.success { news := some [] })
     (.success { reddit := some [] })
     (.success { financials := none, direction := none, confidence := none })]

/-- The symbol-bucket test of the `reduce`:
`stock.symbol.toLowerCase().startsWith(inputValue)`. -/
def symbolMatch (inputValue : String) (s : Stock) : Bool :=
  jsStartsWith (jsToLower s.symbol) inputValue

/-- The name-bucket test of the `reduce`: reached only when the symbol
test failed, and then `stock.name.toLowerCase().startsWith(inputValue)`. -/
def nameMatch (inputValue : String) (s : Stock) : Bool :=
  !symbolMatch inputValue s && jsStartsWith (jsToLower s.name) inputValue

/-- 0 for entries of the symbol-match bucket, 1 for the rest. -/
def bucketRank (inputValue : String) (s : Stock) : Nat :=
  if symbolMatch inputValue s then 0 else 1

/-- 0 for members of the popular-symbol set, 1 for non-members. -/
def popRank (sym : String) : Nat :=
  if isPopular sym then 0 else 1

/-- The order the suggestion list is claimed to obey: symbol-bucket
entries before name-bucket entries; within a bucket, popular symbols
before non-popular ones; at equal popularity, lexicographic order of the
symbol code. -/
def suggestionOrder (inputValue : String) (a b : Stock) : Prop :=
  bucketRank inputValue a < bucketRank inputValue b ∨
    (bucketRank inputValue a = bucketRank inputValue b ∧
      (popRank a.symbol < popRank b.symbol ∨
        (popRank a.symbol = popRank b.symbol ∧
          charListLE a.symbol.data b.symbol.data = true)))

/-! ## Helper lemmas -/

/-- The `reduce` of `getSuggestions` builds exactly the two filters of the
candidate list: entries whose lower-cased symbol starts with the input,
and entries failing that whose lower-cased name does, each in candidate
order. -/
theorem partitionFold_eq (inputValue : String) :
    ∀ (C : List Stock) (acc : List Stock × List Stock),
      C.foldl (partitionStep inputValue) acc =
        (acc.1 ++ C.filter (symbolMatch inputValue),
          acc.2 ++ C.filter (nameMatch inputValue)) := by
  intro C
  induction C with
  | nil => intro acc; simp
  | cons s rest ih =>
      intro acc
      rw [List.foldl_cons, ih]
      by_cases h1 : symbolMatch inputValue s
      · simp [partitionStep, symbolMatch, nameMatch, h1] at *
        simp [List.filter_cons, symbolMatch, h1, nameMatch]
      · by_cases h2 : jsStartsWith (jsToLower s.name) inputValue
        · simp only [partitionStep, symbolMatch] at h1 ⊢
          simp [h1, h2, List.filter_cons, symbolMatch, nameMatch]
        · simp only [partitionStep, symbolMatch] at h1 ⊢
          simp [h1, h2, List.filter_cons, symbolMatch, nameMatch]

/-- `partitionMatches` as the two filters. -/
theorem partitionMatches_eq (inputValue : String) (C : List Stock) :
    partitionMatches inputValue C =
      (C.filter (symbolMatch inputValue), C.filter (nameMatch inputValue)) := by
  rw [partitionMatches, partitionFold_eq]
  simp

/-- The lexicographic character order is total. -/
theorem charListLE_total : ∀ as bs : List Char,
    charListLE as bs = true ∨ charListLE bs as = true := by
  intro as
  induction as with
  | nil => intro bs; left; rfl
  | cons a as ih =>
      intro bs
      cases bs with
      | nil => right; rfl
      | cons b bs =>
          rcases lt_trichotomy a b with h | h | h
          · left; simp [charListLE, h]
          · subst h
            rcases ih bs with h' | h'
            · left; simp [charListLE, lt_irrefl, h']
            · right; simp [charListLE, lt_irrefl, h']
          · right; simp [charListLE, h]

/-- The lexicographic character order is transitive. -/
theorem charListLE_trans : ∀ as bs cs : List Char,
    charListLE as bs = true → charListLE bs cs = true → charListLE as cs = true := by
  intro as
  induction as with
  | nil => intro bs cs _ _; rfl
  | cons a as ih =>
      intro bs cs hab hbc
      cases bs with
      | nil => simp [charListLE] at hab
      | cons b bs =>
          cases cs with
          | nil => simp [charListLE] at hbc
          | cons c cs =>
              simp only [charListLE] at hab hbc ⊢
              rcases lt_trichotomy a b with h1 | h1 | h1
              · rcases lt_trichotomy b c with h2 | h2 | h2
                · simp [lt_trans h1 h2]
                · subst h2; simp [h1]
                · simp [h1, not_lt_of_lt h1] at hab
                  rcases lt_trichotomy a c with h3 | h3 | h3
                  · simp [h3]
                  · subst h3
                    simp [h2, not_lt_of_lt h2] at hbc
                  · simp [h2, not_lt_of_lt h2] at hbc
              · subst h1
                rcases lt_trichotomy a c with h3 | h3 | h3
                · simp [h3]
                · subst h3
                  simp only [lt_irrefl, if_false] at hab hbc ⊢
                  exact ih bs cs hab hbc
                · simp [h3, not_lt_of_lt h3] at hbc
              · simp [not_lt_of_lt h1, h1] at hab

/-- The comparator holds exactly when the (popularity rank, symbol code)
key of `a` is lexicographically no greater than that of `b`. -/
theorem stockLE_iff_key (a b : Stock) :
    stockLE a b = true ↔
      popRank a.symbol < popRank b.symbol ∨
        (popRank a.symbol = popRank b.symbol ∧
          charListLE a.symbol.data b.symbol.data = true) := by
  unfold stockLE popRank jsSymbolLE
  cases ha : isPopular a.symbol <;> cases hb : isPopular b.symbol <;> simp [ha, hb]

/-- The comparator relation is total. -/
instance : IsTotal Stock stockLEP where
  total a b := by
    unfold stockLEP
    rw [stockLE_iff_key, stockLE_iff_key]
    rcases Nat.lt_trichotomy (popRank a.symbol) (popRank b.symbol) with h | h | h
    · exact Or.inl (Or.inl h)
    · rcases charListLE_total a.symbol.data b.symbol.data with h' | h'
      · exact Or.inl (Or.inr ⟨h, h'⟩)
      · exact Or.inr (Or.inr ⟨h.symm, h'⟩)
    · exact Or.inr (Or.inl h)

/-- The comparator relation is transitive. -/
instance : IsTrans Stock stockLEP where
  trans a b c := by
    unfold stockLEP
    rw [stockLE_iff_key, stockLE_iff_key, stockLE_iff_key]
    rintro (h1 | ⟨h1, h1'⟩) (h2 | ⟨h2, h2'⟩)
    · exact Or.inl (Nat.lt_trans h1 h2)
    · exact Or.inl (h2 ▸ h1)
    · exact Or.inl (h1 ▸ h2)
    · exact Or.inr ⟨h1.trans h2, charListLE_trans _ _ _ h1' h2'⟩

/-- Sorting a bucket permutes it. -/
theorem sortStocks_perm (l : List Stock) : (sortStocks l).Perm l :=
  List.perm_insertionSort stockLEP l

/-- Membership is preserved by sorting a bucket. -/
theorem mem_sortStocks {s : Stock} {l : List Stock} :
    s ∈ sortStocks l ↔ s ∈ l :=
  (sortStocks_perm l).mem_iff

/-- A sorted bucket is pairwise ordered by the comparator. -/
theorem sortStocks_sorted (l : List Stock) :
    (sortStocks l).Pairwise stockLEP :=
  List.sorted_insertionSort stockLEP l

/-- Concatenating the two disjoint filters permutes the filter of the
disjunction. -/
theorem filter_append_filter_perm (p q : Stock → Bool)
    (hdis : ∀ a, q a = true → p a = false) :
    ∀ l : List Stock,
      (l.filter p ++ l.filter q).Perm (l.filter fun a => p a || q a) := by
  intro l
  induction l with
  | nil => simp
  | cons a l ih =>
      by_cases hp : p a = true
      · have hq : q a = false := by
          cases hqa : q a
          · rfl
          · rw [hdis a hqa] at hp; exact absurd hp (by simp)
        simpa [List.filter_cons, hp, hq] using ih.cons a
      · by_cases hq : q a = true
        · have : (l.filter p ++ a :: l.filter q).Perm
              (a :: (l.filter p ++ l.filter q)) := List.perm_middle.symm.symm
          simp only [List.filter_cons, hp, hq, if_neg, Bool.false_or]
          simp only [Bool.not_eq_true] at hp
          simp [hp, hq]
          exact List.perm_middle.trans (ih.cons a)
        · simp only [Bool.not_eq_true] at hp hq
          simpa [List.filter_cons, hp, hq] using ih

/-- `getSuggestions` is the truncation of the full ranked concatenation. -/
theorem getSuggestions_eq (value : String) (stockData : List Stock) :
    getSuggestions value stockData =
      if (normalizeQuery value).length = 0 then []
      else (rankedFull value stockData).take 10 := rfl

/-! ## The claims -/

/-- C7: for every candidate set `C` and every query `q` whose trimmed form
is the empty string (including whitespace-only queries), the ranking
returns the empty sequence. -/
theorem rank_empty_query (q : String) (C : List Stock) (h : jsTrim q = "") :
    getSuggestions q C = [] := by
  have hn : normalizeQuery q = "" := by rw [normalizeQuery, h]; rfl
  rw [getSuggestions_eq, hn]
  rfl

/-- Witness for C7: the whitespace-only query `" "` trims to the empty
string and yields no suggestions over a sample candidate set. -/
theorem rank_empty_query_witness :
    jsTrim " " = "" ∧
      getSuggestions " " [{ symbol := "AAPL", name := "Apple Inc" }] = [] :=
  ⟨by decide, rank_empty_query " " [{ symbol := "AAPL", name := "Apple Inc" }] (by decide)⟩

/-- C8: in the dynamically-fetched-candidates variant the suggestion list
is truncated to the configured bound 10, and what is returned is a
prefix of the concatenated sorted buckets. -/
theorem rank_bounded (q : String) (C : List Stock) :
    (getSuggestions q C).length ≤ 10 ∧ getSuggestions q C <+: rankedFull q C := by
  rw [getSuggestions_eq]
  by_cases h0 : (normalizeQuery q).length = 0
  · simp [h0]
  · rw [if_neg h0]
    exact ⟨List.length_take_le 10 _, List.take_prefix 10 _⟩

/-- C10: when the resolved, upper-cased route ticker is empty (missing
parameter, or an empty parameter array), the effect issues none of the
four backend requests and leaves every state cell untouched. -/
theorem load_empty_ticker (p : RouteParam) (h : tickerT p = "")
    (price : FetchResult PricePayload) (news : FetchResult NewsPayload)
    (reddit : FetchResult RedditPayload) (fin : FetchResult FinPayload)
    (s : DashboardState) :
    load (tickerT p) price news reddit fin s = s ∧ requests (tickerT p) = [] := by
  rw [h]
  exact ⟨by simp [load], by simp [requests]⟩

/-- Witness for C10: an empty route-parameter array resolves to the empty
ticker, so nothing is fetched and the initial pending state persists. -/
theorem load_empty_ticker_witness :
    tickerT (RouteParam.arr []) = "" ∧
      load (tickerT (RouteParam.arr [])) (.httpFail) (.httpFail) (.httpFail) (.httpFail)
          initialState = initialState ∧
      requests (tickerT (RouteParam.arr [])) = [] :=
  ⟨by decide,
    load_empty_ticker (RouteParam.arr []) (by decide) .httpFail .httpFail .httpFail .httpFail
      initialState⟩

/-- C1: for a non-empty ticker, when all four backend calls succeed the
merged result takes `predicted_price` from the price payload, the `news`
and `reddit` lists from their payloads, and `financials`, `direction`
and `confidence` from the financials payload, defaulting every missing
payload field to its absent marker (`none`, or `[]` for the two lists)
instead of failing. -/
theorem load_all_success (T : String) (hT : T ≠ "")
    (pp : PricePayload) (np : NewsPayload) (rp : RedditPayload) (fp : FinPayload)
    (s : DashboardState) :
    load T (.success pp) (.success np) (.success rp) (.success fp) s =
      { s with
        predictedPrice := pp.predicted_price,
        news := np.news.getD [],
        reddit := rp.reddit.getD [],
        financials := fp.financials,
        direction := fp.direction,
        confidence := fp.confidence } := by
  unfold load
  rw [if_neg hT]
  rfl

/-- Witness for C1: a concrete all-success load for ticker "AAPL" whose
price and financials payloads are partially missing merges the present
fields and defaults the absent ones. -/
theorem load_all_success_witness :
    ("AAPL" : String) ≠ "" ∧
      load "AAPL" (.success { predicted_price := some 123 })
          (.success { news := some [{ headline := "up day", sentiment := "positive" }] })
          (.success { reddit := none })
          (.success { financials := none, direction := some "up", confidence := none })
          initialState =
        { initialState with
          predictedPrice := some 123,
          news := [{ headline := "up day", sentiment := "positive" }],
          reddit := [],
          financials := none,
          direction := some "up",
          confidence := none } :=
  ⟨by decide,
    load_all_success "AAPL" (by decide) { predicted_price := some 123 }
      { news := some [{ headline := "up day", sentiment := "positive" }] }
      { reddit := none }
      { financials := none, direction := some "up", confidence := none } initialState⟩

/-- C9: when the upstream symbol provider answers with a non-2xx status or
with a 2xx body that is not an array, the route returns an error body the
client turns into an empty candidate list, and a server-side error is
logged. -/
theorem lookup_failure_degrades (k : String) (upstream : UpstreamResp)
    (h : (∃ st, upstream = .httpError st) ∨ upstream = .okNotArray) :
    clientCandidates (routeGET (some k) upstream).body = [] ∧
      (routeGET (some k) upstream).logged = true := by
  rcases h with ⟨st, rfl⟩ | rfl <;> simp [routeGET, clientCandidates]

/-- Witness for C9: an upstream 403 yields an empty candidate list and a
logged error. -/
theorem lookup_failure_degrades_witness :
    clientCandidates (routeGET (some "key") (.httpError 403)).body = [] ∧
      (routeGET (some "key") (.httpError 403)).logged = true :=
  lookup_failure_degrades "key" (.httpError 403) (Or.inl ⟨403, rfl⟩)

/-- C4: for a query that is non-empty after trimming, every returned
suggestion has a symbol code or a display name that, lower-cased, starts
with the trimmed, lower-cased query. -/
theorem rank_prefix_sound (q : String) (C : List Stock) (s : Stock)
    (_hq : jsTrim q ≠ "") (hs : s ∈ getSuggestions q C) :
    jsStartsWith (jsToLower s.symbol) (jsToLower (jsTrim q)) = true ∨
      jsStartsWith (jsToLower s.name) (jsToLower (jsTrim q)) = true := by
  rw [getSuggestions_eq] at hs
  by_cases h0 : (normalizeQuery q).length = 0
  · rw [if_pos h0] at hs
    exact absurd hs (List.not_mem_nil s)
  · rw [if_neg h0] at hs
    have hs' : s ∈ rankedFull q C := (List.take_sublist 10 _).mem hs
    rw [rankedFull, partitionMatches_eq] at hs'
    rcases List.mem_append.mp hs' with h | h
    · have hmem := mem_sortStocks.mp h
      have := List.of_mem_filter hmem
      exact Or.inl (by simpa [symbolMatch, normalizeQuery] using this)
    · have hmem := mem_sortStocks.mp h
      have := List.of_mem_filter hmem
      simp only [nameMatch, Bool.and_eq_true] at this
      exact Or.inr (by simpa [normalizeQuery] using this.2)

/-- Witness for C4: the query `"aa"` over a one-candidate set returns that
candidate, whose lower-cased symbol starts with `"aa"`. -/
theorem rank_prefix_sound_witness :
    jsTrim "aa" ≠ "" ∧
      ({ symbol := "AAPL", name := "Apple Inc" } : Stock) ∈
        getSuggestions "aa" [{ symbol := "AAPL", name := "Apple Inc" }] ∧
      (jsStartsWith (jsToLower (String.mk ['A', 'A', 'P', 'L'])) (jsToLower (jsTrim "aa")) = true ∨
        jsStartsWith (jsToLower (String.mk ['A', 'p', 'p', 'l', 'e', ' ', 'I', 'n', 'c']))
          (jsToLower (jsTrim "aa")) = true) :=
  ⟨by decide, by decide,
    rank_prefix_sound "aa" [{ symbol := "AAPL", name := "Apple Inc" }]
      { symbol := "AAPL", name := "Apple Inc" } (by decide) (by decide)⟩

/-- C5: the suggestion list is pairwise ordered by the ranking key —
symbol-bucket entries before name-bucket entries, popular symbols before
non-popular ones within a bucket, and lexicographic symbol order at
equal popularity. -/
theorem rank_ordered (q : String) (C : List Stock) :
    (getSuggestions q C).Pairwise (suggestionOrder (normalizeQuery q)) := by
  rw [getSuggestions_eq]
  by_cases h0 : (normalizeQuery q).length = 0
  · rw [if_pos h0]; exact List.Pairwise.nil
  · rw [if_neg h0]
    refine List.Pairwise.sublist (List.take_sublist 10 _) ?_
    rw [rankedFull, partitionMatches_eq, List.pairwise_append]
    refine ⟨?_, ?_, ?_⟩
    · refine (sortStocks_sorted _).imp_of_mem ?_
      intro a b ha hb hab
      have ha' : symbolMatch (normalizeQuery q) a = true :=
        List.of_mem_filter (mem_sortStocks.mp ha)
      have hb' : symbolMatch (normalizeQuery q) b = true :=
        List.of_mem_filter (mem_sortStocks.mp hb)
      exact Or.inr ⟨by simp [bucketRank, ha', hb'], (stockLE_iff_key a b).mp hab⟩
    · refine (sortStocks_sorted _).imp_of_mem ?_
      intro a b ha hb hab
      have ha' := List.of_mem_filter (mem_sortStocks.mp ha)
      have hb' := List.of_mem_filter (mem_sortStocks.mp hb)
      simp only [nameMatch, Bool.and_eq_true, Bool.not_eq_true'] at ha' hb'
      exact Or.inr ⟨by simp [bucketRank, ha'.1, hb'.1], (stockLE_iff_key a b).mp hab⟩
    · intro a ha b hb
      have ha' : symbolMatch (normalizeQuery q) a = true :=
        List.of_mem_filter (mem_sortStocks.mp ha)
      have hb' := List.of_mem_filter (mem_sortStocks.mp hb)
      simp only [nameMatch, Bool.and_eq_true, Bool.not_eq_true'] at hb'
      exact Or.inl (by simp [bucketRank, ha', hb'.1])

/-- Counterexample for C6: a candidate set holding two entries with the
symbol code "AAPL" produces a suggestion list repeating that code — the
ranking performs no deduplication. -/
theorem rank_dup_counterexample :
    ¬ ((getSuggestions "aa"
          [{ symbol := "AAPL", name := "Apple Inc" },
            { symbol := "AAPL", name := "Apple Class B" }]).map Stock.symbol).Nodup := by
  decide

/-- C6 (amended): when the candidate set itself carries no two entries
with the same symbol code, the suggestion list carries no two elements
with the same symbol code. -/
theorem rank_nodup (q : String) (C : List Stock)
    (h : (C.map Stock.symbol).Nodup) :
    ((getSuggestions q C).map Stock.symbol).Nodup := by
  rw [getSuggestions_eq]
  by_cases h0 : (normalizeQuery q).length = 0
  · rw [if_pos h0]; simp
  · rw [if_neg h0]
    have hdis : ∀ a, nameMatch (normalizeQuery q) a = true →
        symbolMatch (normalizeQuery q) a = false := by
      intro a ha
      simp only [nameMatch, Bool.and_eq_true, Bool.not_eq_true'] at ha
      exact ha.1
    have hperm :
        ((sortStocks (C.filter (symbolMatch (normalizeQuery q))) ++
            sortStocks (C.filter (nameMatch (normalizeQuery q)))).map Stock.symbol).Perm
          ((C.filter fun a =>
              symbolMatch (normalizeQuery q) a || nameMatch (normalizeQuery q) a).map
            Stock.symbol) :=
      (((sortStocks_perm _).append (sortStocks_perm _)).trans
        (filter_append_filter_perm _ _ hdis C)).map _
    have hsub :
        ((C.filter fun a =>
            symbolMatch (normalizeQuery q) a || nameMatch (normalizeQuery q) a).map
          Stock.symbol).Sublist (C.map Stock.symbol) :=
      (List.filter_sublist C).map _
    have hnd :
        ((sortStocks (C.filter (symbolMatch (normalizeQuery q))) ++
            sortStocks (C.filter (nameMatch (normalizeQuery q)))).map Stock.symbol).Nodup :=
      hperm.nodup_iff.mpr (hsub.nodup h)
    refine List.Nodup.sublist ?_ hnd
    rw [rankedFull, partitionMatches_eq]
    exact (List.take_sublist 10 _).map _

/-- Witness for C6 (amended): a duplicate-free two-candidate set yields a
duplicate-free suggestion list. -/
theorem rank_nodup_witness :
    (([{ symbol := "AAPL", name := "Apple Inc" },
        { symbol := "MSFT", name := "Microsoft" }] : List Stock).map Stock.symbol).Nodup ∧
      ((getSuggestions "aa"
          [{ symbol := "AAPL", name := "Apple Inc" },
            { symbol := "MSFT", name := "Microsoft" }]).map Stock.symbol).Nodup :=
  ⟨by decide,
    rank_nodup "aa"
      [{ symbol := "AAPL", name := "Apple Inc" }, { symbol := "MSFT", name := "Microsoft" }]
      (by decide)⟩

/-- Counterexample for C2: when the price `fetch` itself rejects
(transport error), its rejection reason passes through the `then`
unlabelled, so the reported error is the stringified transport error and
names none of the four sections. -/
theorem load_transport_counterexample :
    (load "AAPL" (.transportFail "TypeError: fetch failed")
        (.success { news := some [] }) (.success { reddit := some [] })
        (.success { financials := none, direction := none, confidence := none })
        initialState).error = some "TypeError: fetch failed" ∧
      "TypeError: fetch failed" ∉ sectionLabels := by
  decide

/-- C2 (amended): for a non-empty ticker, when any of the four calls
fails, a single error is reported and none of the six data cells is
populated from the successful payloads; when no call failed at the
transport level, the error text is one of the four section labels. -/
theorem load_failure (T : String) (price : FetchResult PricePayload)
    (news : FetchResult NewsPayload) (reddit : FetchResult RedditPayload)
    (fin : FetchResult FinPayload) (s : DashboardState) (hT : T ≠ "")
    (hfail : allSuccess price news reddit fin = false) :
    ((load T price news reddit fin s).predictedPrice = s.predictedPrice ∧
      (load T price news reddit fin s).news = s.news ∧
      (load T price news reddit fin s).reddit = s.reddit ∧
      (load T price news reddit fin s).financials = s.financials ∧
      (load T price news reddit fin s).direction = s.direction ∧
      (load T price news reddit fin s).confidence = s.confidence) ∧
    (load T price news reddit fin s).error.isSome = true ∧
    (anyTransport price news reddit fin = false →
      ((load T price news reddit fin s).error = some "Price API failed" ∨
        (load T price news reddit fin s).error = some "News API failed" ∨
        (load T price news reddit fin s).error = some "Reddit API failed" ∨
        (load T price news reddit fin s).error = some "Financials API failed")) := by
  cases price <;> cases news <;> cases reddit <;> cases fin <;>
    simp only [load, if_neg hT] <;>
    first
      | exact ⟨⟨rfl, rfl, rfl, rfl, rfl, rfl⟩, rfl, fun htr => by
          first
            | exact Or.inl rfl
            | exact Or.inr (Or.inl rfl)
            | exact Or.inr (Or.inr (Or.inl rfl))
            | exact Or.inr (Or.inr (Or.inr rfl))
            | simp [anyTransport, FetchResult.isTransport] at htr⟩
      | simp [allSuccess, FetchResult.isSuccess] at hfail

/-- Witness for C2 (amended): a failing Reddit call (non-ok status) leaves
the six data cells at their initial values and reports the Reddit
section label. -/
theorem load_failure_witness :
    ((load "AAPL" (.success { predicted_price := some 1 }) (.success { news := some [] })
          .httpFail (.success { financials := none, direction := none, confidence := none })
          initialState).predictedPrice = initialState.predictedPrice ∧
        (load "AAPL" (.success { predicted_price := some 1 }) (.success { news := some [] })
            .httpFail (.success { financials := none, direction := none, confidence := none })
            initialState).news = initialState.news ∧
        (load "AAPL" (.success { predicted_price := some 1 }) (.success { news := some [] })
            .httpFail (.success { financials := none, direction := none, confidence := none })
            initialState).reddit = initialState.reddit ∧
        (load "AAPL" (.success { predicted_price := some 1 }) (.success { news := some [] })
            .httpFail (.success { financials := none, direction := none, confidence := none })
            initialState).financials = initialState.financials ∧
        (load "AAPL" (.success { predicted_price := some 1 }) (.success { news := some [] })
            .httpFail (.success { financials := none, direction := none, confidence := none })
            initialState).direction = initialState.direction ∧
        (load "AAPL" (.success { predicted_price := some 1 }) (.success { news := some [] })
            .httpFail (.success { financials := none, direction := none, confidence := none })
            initialState).confidence = initialState.confidence) ∧
      (load "AAPL" (.success { predicted_price := some 1 }) (.success { news := some [] })
          .httpFail (.success { financials := none, direction := none, confidence := none })
          initialState).error.isSome = true ∧
      (anyTransport (.success { predicted_price := some 1 }) (.success { news := some [] })
            .httpFail (.success { financials := none, direction := none, confidence := none }) =
          false →
        ((load "AAPL" (.success { predicted_price := some 1 }) (.success { news := some [] })
              .httpFail (.success { financials := none, direction := none, confidence := none })
              initialState).error = some "Price API failed" ∨
          (load "AAPL" (.success { predicted_price := some 1 }) (.success { news := some [] })
              .httpFail (.success { financials := none, direction := none, confidence := none })
              initialState).error = some "News API failed" ∨
          (load "AAPL" (.success { predicted_price := some 1 }) (.success { news := some [] })
              .httpFail (.success { financials := none, direction := none, confidence := none })
              initialState).error = some "Reddit API failed" ∨
          (load "AAPL" (.success { predicted_price := some 1 }) (.success { news := some [] })
              .httpFail (.success { financials := none, direction := none, confidence := none })
              initialState).error = some "Financials API failed")) :=
  load_failure "AAPL" (.success { predicted_price := some 1 }) (.success { news := some [] })
    .httpFail (.success { financials := none, direction := none, confidence := none })
    initialState (by decide) (by decide)

/-- C3 (the code at the failing trace): after navigating from "aapl" to
"msft" while the first load is in flight, the stale "AAPL" load settles
last and its payload is applied to the shared cells — the page is on
ticker "MSFT" yet shows the stale predicted price 50 instead of the
MSFT price 100.  The source has no ticker guard and no cancellation, so
the stale result is not discarded. -/
theorem stale_load_overwrites :
    (runTrace staleTrace).activeT = "MSFT" ∧
      (runTrace staleTrace).dash.predictedPrice = some 50 ∧
      (runTrace staleTrace).dash.predictedPrice ≠ some 100 := by
  decide

end StockApp
